import Mathlib

/-!
Verification of the jj-enterprises-web front end.

JavaScript numbers are modelled as exact rationals, JavaScript strings as
Lean strings or lists of characters, and browser storage as explicit maps
threaded through the functions that the source reads and writes.
-/

/-- JavaScript Math.round: rounds to the nearest integer, halves toward
positive infinity. -/
def jsRound (x : ℚ) : ℤ := ⌊x + 1/2⌋

/-- Numeric value of the JavaScript toFixed(2) rendering of a number:
rounded to two decimal places, halves toward positive infinity. -/
def toFixed2 (x : ℚ) : ℚ := (jsRound (x * 100) : ℚ) / 100

namespace Checkout

/-- A cart item as read on the checkout page.  The source parses the price
string with Number.parseFloat before any arithmetic; price here is that
parsed numeric value, quantity the stored number. -/
structure CartItem where
  price : ℚ
  quantity : ℚ
deriving DecidableEq

/-- calculateTotal from src/app/checkout/page.tsx: reduce over the cart,
accumulating price times quantity. -/
def calculateTotal (cartItems : List CartItem) : ℚ :=
  cartItems.foldl (fun total item => total + item.price * item.quantity) 0

/-- gst on the checkout page: total * 0.18. -/
def gst (total : ℚ) : ℚ := total * (18/100)

/-- deliveryCharges on the checkout page: total > 5000 ? 0 : 200. -/
def deliveryCharges (total : ℚ) : ℚ := if total > 5000 then 0 else 200

/-- finalTotal on the checkout page: total + gst + deliveryCharges. -/
def finalTotal (cartItems : List CartItem) : ℚ :=
  let total := calculateTotal cartItems
  total + gst total + deliveryCharges total

/-- The subtotal as the claim words it: the sum over items of price times
quantity. -/
def subtotalSpec (cartItems : List CartItem) : ℚ :=
  (cartItems.map (fun item => item.price * item.quantity)).sum

end Checkout

namespace Configurator

/-- The materials offered by the box configurator page. -/
inductive Material
  | corrugated
  | kraft
  | cardboard
deriving DecidableEq

/-- The configuration state of src/app/configurator/page.tsx restricted to
the fields the derived pricing reads. -/
structure BoxConfiguration where
  width : ℚ
  height : ℚ
  depth : ℚ
  thickness : ℚ
  material : Material
  quantity : ℚ
deriving DecidableEq

/-- calculatedVolume from src/app/configurator/page.tsx: the numeric value
of ((width * height * depth) / 1000).toFixed(2). -/
def calculatedVolume (config : BoxConfiguration) : ℚ :=
  toFixed2 ((config.width * config.height * config.depth) / 1000)

/-- estimatedPrice from src/app/configurator/page.tsx:
Math.round((25 + volume * 0.5) * (corrugated ? 1.2 : 1)). -/
def estimatedPrice (config : BoxConfiguration) : ℤ :=
  let base : ℚ := 25
  let vol : ℚ := calculatedVolume config * (1/2)
  let matScale : ℚ := if config.material = Material.corrugated then 12/10 else 1
  jsRound ((base + vol) * matScale)

/-- totalPrice from src/app/configurator/page.tsx: estimatedPrice times
quantity. -/
def totalPrice (config : BoxConfiguration) : ℚ :=
  (estimatedPrice config : ℚ) * config.quantity

end Configurator

namespace Security

/-- The entity replacement table of sanitizeHtml in the security
utilities: the six replaced characters map to their entities, every other
character is kept as is.  The source applies the table through a global
single-character regex replace, which is exactly a per-character map. -/
def htmlEntity (c : Char) : List Char :=
  if c = '&' then "&amp;".data
  else if c = '<' then "&lt;".data
  else if c = '>' then "&gt;".data
  else if c = '"' then "&quot;".data
  else if c = '\'' then "&#x27;".data
  else if c = '/' then "&#x2F;".data
  else [c]

/-- sanitizeHtml from the security utilities:
input.replace(/[&<>"'/]/g, (char) => htmlEntities[char] || char). -/
def sanitizeHtml (input : List Char) : List Char :=
  (input.map htmlEntity).flatten

/-- The six entity strings sanitizeHtml can emit. -/
def entityStrings : List (List Char) :=
  ["&amp;".data, "&lt;".data, "&gt;".data, "&quot;".data, "&#x27;".data, "&#x2F;".data]

/-- The password policy of ENTERPRISE_CONFIG.security in the enterprise
config: minLength 8, uppercase, lowercase, number and special character all
required. -/
structure PasswordPolicy where
  minLength : ℕ
  requireUppercase : Bool
  requireLowercase : Bool
  requireNumber : Bool
  requireSpecialChar : Bool

def passwordPolicy : PasswordPolicy :=
  { minLength := 8
    requireUppercase := true
    requireLowercase := true
    requireNumber := true
    requireSpecialChar := true }

/-- The character class [A-Z]. -/
def isUpperAZ (c : Char) : Bool := 'A' ≤ c && c ≤ 'Z'

/-- The character class [a-z]. -/
def isLowerAZ (c : Char) : Bool := 'a' ≤ c && c ≤ 'z'

/-- The character class [0-9]. -/
def isDigit09 (c : Char) : Bool := '0' ≤ c && c ≤ '9'

/-- The special character class of the password validator. -/
def isSpecialChar (c : Char) : Bool :=
  c ∈ "!@#$%^&*(),.?\":{}|<>".data

/-- Password strength labels. -/
inductive Strength
  | weak
  | medium
  | strong
  | veryStrong
deriving DecidableEq

/-- The result record of validatePassword. -/
structure PasswordValidationResult where
  isValid : Bool
  errors : List String
  strength : Strength
  score : ℕ
deriving DecidableEq

/-- The errors list validatePassword accumulates, in source order, with
the enterprise password policy inlined as the source reads it. -/
def passwordErrors (password : List Char) : List String :=
  (if password.length < passwordPolicy.minLength then
    ["Password must be at least 8 characters"]
  else [])
  ++ (if passwordPolicy.requireUppercase && !(password.any isUpperAZ) then
    ["Password must contain at least one uppercase letter"]
  else [])
  ++ (if passwordPolicy.requireLowercase && !(password.any isLowerAZ) then
    ["Password must contain at least one lowercase letter"]
  else [])
  ++ (if passwordPolicy.requireNumber && !(password.any isDigit09) then
    ["Password must contain at least one number"]
  else [])
  ++ (if passwordPolicy.requireSpecialChar && !(password.any isSpecialChar) then
    ["Password must contain at least one special character"]
  else [])

/-- The score validatePassword accumulates: the length block adds one
point at each of the thresholds 8, 12 and 16, and each character class
check adds one point when the class is present and not demanded missing
by an error. -/
def passwordScore (password : List Char) : ℕ :=
  (if password.length < passwordPolicy.minLength then 0
   else 1 + (if password.length ≥ 12 then 1 else 0)
          + (if password.length ≥ 16 then 1 else 0))
  + (if passwordPolicy.requireUppercase && !(password.any isUpperAZ) then 0
     else if password.any isUpperAZ then 1 else 0)
  + (if passwordPolicy.requireLowercase && !(password.any isLowerAZ) then 0
     else if password.any isLowerAZ then 1 else 0)
  + (if passwordPolicy.requireNumber && !(password.any isDigit09) then 0
     else if password.any isDigit09 then 1 else 0)
  + (if passwordPolicy.requireSpecialChar && !(password.any isSpecialChar) then 0
     else if password.any isSpecialChar then 1 else 0)

/-- The strength classification at the end of validatePassword. -/
def passwordStrength (password : List Char) : Strength :=
  if passwordScore password ≤ 2 then .weak
  else if passwordScore password ≤ 4 then .medium
  else if passwordScore password ≤ 6 then .strong
  else .veryStrong

/-- validatePassword from the security utilities: valid when no error was
pushed, with the errors, strength and score described above. -/
def validatePassword (password : List Char) : PasswordValidationResult :=
  { isValid := (passwordErrors password).length = 0
    errors := passwordErrors password
    strength := passwordStrength password
    score := passwordScore password }

end Security

namespace Checkout

/-- The JavaScript regex class backslash-s: whitespace characters. -/
def isJsWhitespace (c : Char) : Bool :=
  c.toNat = 0x9 || c.toNat = 0xa || c.toNat = 0xb || c.toNat = 0xc
    || c.toNat = 0xd || c.toNat = 0x20 || c.toNat = 0xa0 || c.toNat = 0x1680
    || (0x2000 ≤ c.toNat && c.toNat ≤ 0x200a)
    || c.toNat = 0x2028 || c.toNat = 0x2029 || c.toNat = 0x202f
    || c.toNat = 0x205f || c.toNat = 0x3000 || c.toNat = 0xfeff

/-- The character class of the email regex atoms: anything but whitespace
and the at sign. -/
def emailAtomChar (c : Char) : Bool := !(isJsWhitespace c) && c ≠ '@'

/-- Test of the anchored email regex of the checkout validator: the string
splits as A, at sign, B, dot, C with A, B and C nonempty words over the
atom class.  Exactly one at sign may occur; after it, some dot must sit
at a position with at least one atom before and after it. -/
def emailRegexTest (s : List Char) : Bool :=
  match s.splitOn '@' with
  | [a, r] =>
      1 ≤ a.length && a.all emailAtomChar && r.all emailAtomChar
        && (List.range r.length).any (fun i =>
              1 ≤ i && i + 1 < r.length && r.getD i ' ' = '.')
  | _ => false

/-- Test of the anchored phone regex of the checkout validator: an
optional plus sign, a digit 1 to 9, then 1 to 14 further digits. -/
def phoneRegexTest (s : List Char) : Bool :=
  let t := match s with
    | '+' :: rest => rest
    | _ => s
  match t with
  | c :: rest =>
      ('1' ≤ c && c ≤ '9') && rest.all Security.isDigit09
        && 1 ≤ rest.length && rest.length ≤ 14
  | [] => false

/-- Test of the anchored pincode regex of the checkout validator: a digit
1 to 9 followed by exactly five digits. -/
def pincodeRegexTest (s : List Char) : Bool :=
  match s with
  | c :: rest => ('1' ≤ c && c ≤ '9') && rest.length = 5
      && rest.all Security.isDigit09
  | [] => false

/-- The billing address record of the checkout order state. -/
structure BillingAddress where
  firstName : String
  lastName : String
  company : String
  address : String
  city : String
  state : String
  pincode : String
  phone : String
  email : String
deriving DecidableEq

/-- The shipping address record of the checkout order state; it has no
email field. -/
structure ShippingAddress where
  firstName : String
  lastName : String
  company : String
  address : String
  city : String
  state : String
  pincode : String
  phone : String
deriving DecidableEq

/-- The checkout order state validateForm reads. -/
structure OrderData where
  billingAddress : BillingAddress
  shippingAddress : ShippingAddress
  sameAsBilling : Bool
  agreedToTerms : Bool
deriving DecidableEq

/-- validateForm from src/app/checkout/page.tsx, as the pair of its
boolean result and the error message it leaves set (none when it clears
the error).  The required-field loops are unrolled in source order; a
missing field is the falsy empty string. -/
def validateForm (o : OrderData) : Bool × Option String :=
  if o.billingAddress.firstName = "" then
    (false, some "Billing First Name is required.")
  else if o.billingAddress.lastName = "" then
    (false, some "Billing Last Name is required.")
  else if o.billingAddress.address = "" then
    (false, some "Billing Address is required.")
  else if o.billingAddress.city = "" then
    (false, some "Billing City is required.")
  else if o.billingAddress.state = "" then
    (false, some "Billing State is required.")
  else if o.billingAddress.pincode = "" then
    (false, some "Billing Pincode is required.")
  else if o.billingAddress.phone = "" then
    (false, some "Billing Phone is required.")
  else if o.billingAddress.email = "" then
    (false, some "Billing Email is required.")
  else if !o.sameAsBilling && o.shippingAddress.firstName = "" then
    (false, some "Shipping First Name is required.")
  else if !o.sameAsBilling && o.shippingAddress.lastName = "" then
    (false, some "Shipping Last Name is required.")
  else if !o.sameAsBilling && o.shippingAddress.address = "" then
    (false, some "Shipping Address is required.")
  else if !o.sameAsBilling && o.shippingAddress.city = "" then
    (false, some "Shipping City is required.")
  else if !o.sameAsBilling && o.shippingAddress.state = "" then
    (false, some "Shipping State is required.")
  else if !o.sameAsBilling && o.shippingAddress.pincode = "" then
    (false, some "Shipping Pincode is required.")
  else if !o.sameAsBilling && o.shippingAddress.phone = "" then
    (false, some "Shipping Phone is required.")
  else if !(emailRegexTest o.billingAddress.email.data) then
    (false, some "Please enter a valid email address for billing.")
  else if !(phoneRegexTest (o.billingAddress.phone.data.filter Security.isDigit09)) then
    (false, some "Please enter a valid phone number for billing (e.g., +919876543210 or 9876543210).")
  else if !o.sameAsBilling
      && !(phoneRegexTest (o.shippingAddress.phone.data.filter Security.isDigit09)) then
    (false, some "Please enter a valid phone number for shipping.")
  else if !(pincodeRegexTest o.billingAddress.pincode.data) then
    (false, some "Please enter a valid 6-digit pincode for billing.")
  else if !o.sameAsBilling && !(pincodeRegexTest o.shippingAddress.pincode.data) then
    (false, some "Please enter a valid 6-digit pincode for shipping.")
  else if !o.agreedToTerms then
    (false, some "You must agree to the terms and conditions to place an order.")
  else
    (true, none)

/-- The click handler of the step-1 Continue to Payment button: advance
the wizard to step 2 exactly when validateForm returns true, otherwise
leave the active step unchanged. -/
def continueToPayment (o : OrderData) (activeStep : ℕ) : ℕ :=
  if (validateForm o).1 then 2 else activeStep

end Checkout

namespace Security

/-- An entry of the in-memory rate limit store. -/
structure RateLimitEntry where
  count : ℕ
  firstRequest : ℤ
  lastRequest : ℤ
deriving DecidableEq

/-- The result record of checkRateLimit. -/
structure RateLimitResult where
  allowed : Bool
  remaining : ℤ
  resetTime : ℤ
deriving DecidableEq

/-- checkRateLimit from the security utilities, for one identifier: the
entry the store holds for the identifier comes in, the updated entry goes
out next to the result; now is the Date.now() timestamp of the call. -/
def checkRateLimit (maxRequests : ℕ) (windowMs now : ℤ)
    (entry : Option RateLimitEntry) : RateLimitResult × RateLimitEntry :=
  match entry with
  | none =>
      ({ allowed := true, remaining := (maxRequests : ℤ) - 1,
         resetTime := now + windowMs },
       { count := 1, firstRequest := now, lastRequest := now })
  | some e =>
      if now - e.firstRequest > windowMs then
        ({ allowed := true, remaining := (maxRequests : ℤ) - 1,
           resetTime := now + windowMs },
         { count := 1, firstRequest := now, lastRequest := now })
      else if e.count ≥ maxRequests then
        ({ allowed := false, remaining := 0,
           resetTime := e.firstRequest + windowMs }, e)
      else
        ({ allowed := true, remaining := (maxRequests : ℤ) - (e.count + 1),
           resetTime := e.firstRequest + windowMs },
         { count := e.count + 1, firstRequest := e.firstRequest,
           lastRequest := now })

/-- checkRateLimit folded over a list of call times for one identifier,
threading the stored entry and collecting the results. -/
def runCalls (maxRequests : ℕ) (windowMs : ℤ) (times : List ℤ)
    (entry : Option RateLimitEntry) :
    List RateLimitResult × Option RateLimitEntry :=
  match times with
  | [] => ([], entry)
  | t :: ts =>
      let step := checkRateLimit maxRequests windowMs t entry
      let rest := runCalls maxRequests windowMs ts (some step.2)
      (step.1 :: rest.1, rest.2)

/-- The number of allowed results in a list of rate limit results. -/
def allowedCount (results : List RateLimitResult) : ℕ :=
  (results.filter (fun r => r.allowed)).length

end Security

namespace Box3D

/-- A named box style of the BOX_STYLES table in
src/components/enhanced-3d-configurator.tsx. -/
structure BoxStyle where
  name : String
  description : String
  foldingSequence : List String
  complexity : String
deriving DecidableEq

/-- The BOX_STYLES table, keyed by the style key strings. -/
def BOX_STYLES : List (String × BoxStyle) :=
  [("rsc",
    { name := "Regular Slotted Container"
      description := "Standard shipping box with four flaps on top and bottom"
      foldingSequence := ["bottom", "sides", "top"]
      complexity := "simple" }),
   ("autoBottom",
    { name := "Auto Bottom Box"
      description := "Self-locking bottom, convenient for packing"
      foldingSequence := ["bottom-lock", "sides", "top"]
      complexity := "medium" }),
   ("display",
    { name := "Display Box"
      description := "Retail display box with advertisement panel"
      foldingSequence := ["base", "display-panel", "sides"]
      complexity := "medium" }),
   ("drawer",
    { name := "Drawer Box"
      description := "Slide-out drawer style box"
      foldingSequence := ["outer-sleeve", "inner-drawer"]
      complexity := "complex" }),
   ("folding",
    { name := "Folding Box"
      description := "One-piece folding box without glue"
      foldingSequence := ["base-fold", "side-tabs", "lock-tabs"]
      complexity := "medium" }),
   ("gableTop",
    { name := "Gable Top Box"
      description := "Milk carton style with peaked top"
      foldingSequence := ["base", "sides", "gable-fold"]
      complexity := "complex" }),
   ("pillow",
    { name := "Pillow Box"
      description := "Curved pillow-shaped packaging"
      foldingSequence := ["curve-sides", "end-tucks"]
      complexity := "simple" }),
   ("tuckEnd",
    { name := "Tuck End Box"
      description := "Boxes with tuck-in flaps on ends"
      foldingSequence := ["bottom", "sides", "tuck-ends"]
      complexity := "simple" }),
   ("hingedLid",
    { name := "Hinged Lid Box"
      description := "Premium box with attached hinged lid"
      foldingSequence := ["base", "hinge", "lid"]
      complexity := "complex" })]

/-- The folding sequence read for a style key, empty when the key is
unknown, as AssemblyInstructions reads it
(BOX_STYLES[style]?.foldingSequence || []). -/
def foldingSequenceOf (style : String) : List String :=
  ((BOX_STYLES.find? (fun p => p.1 = style)).map
    (fun p => p.2.foldingSequence)).getD []

/-- The step index Enhanced3DBox hands the folding overlay:
Math.floor(animationProgress * foldingSequence.length). -/
def assemblyStep (style : String) (progress : ℚ) : ℤ :=
  ⌊progress * ((foldingSequenceOf style).length : ℚ)⌋

/-- The instruction text AssemblyInstructions displays at a step index:
instructions[step] || 'Complete'; an out-of-range index or a falsy entry
yields Complete. -/
def currentInstruction (style : String) (step : ℤ) : String :=
  let instructions := foldingSequenceOf style
  let entry := if 0 ≤ step then instructions.get? step.toNat else none
  match entry with
  | some s => if s = "" then "Complete" else s
  | none => "Complete"

/-- JavaScript String.includes: the needle occurs contiguously in the
haystack. -/
def jsIncludes (needle hay : List Char) : Bool := decide (needle <:+: hay)

/-- A rotation tween animateFolding queues on the gsap timeline: the part
is driven to the x rotation targetXPi * pi radians. -/
structure FoldTween where
  partName : String
  targetXPi : ℚ
deriving DecidableEq

/-- animateFolding from the enhanced 3D configurator, over the userData
names of the children of the group: for every step of the folding
sequence whose stepProgress = progress * n - index lies in (0, 1], each
child with a truthy name containing the step name is tweened to the x
rotation stepProgress * pi / 2. -/
def animateFolding (children : List String) (style : String)
    (progress : ℚ) : List FoldTween :=
  let seq := foldingSequenceOf style
  (List.range seq.length).flatMap (fun index =>
    let sp : ℚ := progress * (seq.length : ℚ) - (index : ℚ)
    if 0 < sp ∧ sp ≤ 1 then
      (children.filter (fun nm =>
        nm ≠ "" && jsIncludes (seq.getD index "").data nm.data)).map
        (fun nm => { partName := nm, targetXPi := sp / 2 })
    else [])

/-- A three-component vector of exact numbers. -/
structure Vec3 where
  x : ℚ
  y : ℚ
  z : ℚ
deriving DecidableEq

/-- One mesh part of a generated box: the BoxGeometry dimensions, the
position, an optional Euler rotation whose components are stored in
units of pi, and the part name. -/
structure Part where
  geometry : Vec3
  position : Vec3
  rotation : Option Vec3 := none
  name : String
deriving DecidableEq

/-- createRSCGeometry from the enhanced 3D configurator: the six panels
and eight flaps of a regular slotted container. -/
def createRSCGeometry (length width height thickness : ℚ) : List Part :=
  let flapLength := width * (6/10)
  [{ geometry := ⟨length, thickness, width⟩
     position := ⟨0, -height / 2, 0⟩, name := "bottom" },
   { geometry := ⟨length, thickness, width⟩
     position := ⟨0, height / 2, 0⟩, name := "top" },
   { geometry := ⟨thickness, height, width⟩
     position := ⟨-length / 2, 0, 0⟩, name := "left-side" },
   { geometry := ⟨thickness, height, width⟩
     position := ⟨length / 2, 0, 0⟩, name := "right-side" },
   { geometry := ⟨length, height, thickness⟩
     position := ⟨0, 0, -width / 2⟩, name := "front" },
   { geometry := ⟨length, height, thickness⟩
     position := ⟨0, 0, width / 2⟩, name := "back" },
   { geometry := ⟨length, thickness, flapLength⟩
     position := ⟨0, -height / 2 - thickness, -width / 2 - flapLength / 2⟩
     name := "bottom-front-flap" },
   { geometry := ⟨length, thickness, flapLength⟩
     position := ⟨0, -height / 2 - thickness, width / 2 + flapLength / 2⟩
     name := "bottom-back-flap" },
   { geometry := ⟨flapLength, thickness, width⟩
     position := ⟨-length / 2 - flapLength / 2, -height / 2 - thickness, 0⟩
     name := "bottom-left-flap" },
   { geometry := ⟨flapLength, thickness, width⟩
     position := ⟨length / 2 + flapLength / 2, -height / 2 - thickness, 0⟩
     name := "bottom-right-flap" },
   { geometry := ⟨length, thickness, flapLength⟩
     position := ⟨0, height / 2 + thickness, -width / 2 - flapLength / 2⟩
     name := "top-front-flap" },
   { geometry := ⟨length, thickness, flapLength⟩
     position := ⟨0, height / 2 + thickness, width / 2 + flapLength / 2⟩
     name := "top-back-flap" },
   { geometry := ⟨flapLength, thickness, width⟩
     position := ⟨-length / 2 - flapLength / 2, height / 2 + thickness, 0⟩
     name := "top-left-flap" },
   { geometry := ⟨flapLength, thickness, width⟩
     position := ⟨length / 2 + flapLength / 2, height / 2 + thickness, 0⟩
     name := "top-right-flap" }]

/-- createAutoBottomGeometry: the RSC parts plus two auto-lock tabs. -/
def createAutoBottomGeometry (length width height thickness : ℚ) : List Part :=
  let tabWidth := width * (3/10)
  let tabHeight := height * (2/10)
  createRSCGeometry length width height thickness ++
    [{ geometry := ⟨tabWidth, tabHeight, thickness⟩
       position := ⟨-length / 4, -height / 2 + tabHeight / 2, -width / 2⟩
       name := "auto-lock-tab-1" },
     { geometry := ⟨tabWidth, tabHeight, thickness⟩
       position := ⟨length / 4, -height / 2 + tabHeight / 2, -width / 2⟩
       name := "auto-lock-tab-2" }]

/-- createDisplayBoxGeometry: a lower base with an angled display
panel. -/
def createDisplayBoxGeometry (length width height thickness : ℚ) : List Part :=
  let baseHeight := height * (6/10)
  let displayHeight := height * (4/10)
  [{ geometry := ⟨length, thickness, width⟩
     position := ⟨0, -baseHeight / 2, 0⟩, name := "bottom" },
   { geometry := ⟨thickness, baseHeight, width⟩
     position := ⟨-length / 2, 0, 0⟩, name := "left-side" },
   { geometry := ⟨thickness, baseHeight, width⟩
     position := ⟨length / 2, 0, 0⟩, name := "right-side" },
   { geometry := ⟨length, baseHeight, thickness⟩
     position := ⟨0, 0, -width / 2⟩, name := "front" },
   { geometry := ⟨length, displayHeight, thickness⟩
     position := ⟨0, baseHeight / 2 + displayHeight / 4, width / 2⟩
     rotation := some ⟨-(1/6), 0, 0⟩
     name := "display-panel" }]

/-- createDrawerBoxGeometry: a placeholder delegating to the RSC
generator. -/
def createDrawerBoxGeometry (length width height thickness : ℚ) : List Part :=
  createRSCGeometry length width height thickness

/-- createFoldingBoxGeometry: a placeholder delegating to the RSC
generator. -/
def createFoldingBoxGeometry (length width height thickness : ℚ) : List Part :=
  createRSCGeometry length width height thickness

/-- createGableTopGeometry: a placeholder delegating to the RSC
generator. -/
def createGableTopGeometry (length width height thickness : ℚ) : List Part :=
  createRSCGeometry length width height thickness

/-- createPillowBoxGeometry: a placeholder delegating to the RSC
generator. -/
def createPillowBoxGeometry (length width height thickness : ℚ) : List Part :=
  createRSCGeometry length width height thickness

/-- createTuckEndGeometry: a placeholder delegating to the RSC
generator. -/
def createTuckEndGeometry (length width height thickness : ℚ) : List Part :=
  createRSCGeometry length width height thickness

/-- createHingedLidGeometry: a placeholder delegating to the RSC
generator. -/
def createHingedLidGeometry (length width height thickness : ℚ) : List Part :=
  createRSCGeometry length width height thickness

/-- The style switch of the boxGeometry memo in Enhanced3DBox; an unknown
style key falls through to the RSC generator. -/
def boxGeometry (style : String) (length width height thickness : ℚ) :
    List Part :=
  if style = "rsc" then createRSCGeometry length width height thickness
  else if style = "autoBottom" then
    createAutoBottomGeometry length width height thickness
  else if style = "display" then
    createDisplayBoxGeometry length width height thickness
  else if style = "drawer" then
    createDrawerBoxGeometry length width height thickness
  else if style = "folding" then
    createFoldingBoxGeometry length width height thickness
  else if style = "gableTop" then
    createGableTopGeometry length width height thickness
  else if style = "pillow" then
    createPillowBoxGeometry length width height thickness
  else if style = "tuckEnd" then
    createTuckEndGeometry length width height thickness
  else if style = "hingedLid" then
    createHingedLidGeometry length width height thickness
  else createRSCGeometry length width height thickness

end Box3D

namespace Security

/-- setCSRFToken in a browser context: overwrite the csrf_token slot of
sessionStorage, modelled as the optional stored string. -/
def setCSRFToken (token : String) (_slot : Option String) : Option String :=
  some token

/-- getCSRFToken in a browser context: read the csrf_token slot. -/
def getCSRFToken (slot : Option String) : Option String := slot

/-- validateCSRFToken: the stored token is not null and equals the given
token. -/
def validateCSRFToken (token : String) (slot : Option String) : Bool :=
  match getCSRFToken slot with
  | none => false
  | some stored => stored = token

/-- One lowercase hexadecimal digit character for a value below 16. -/
def hexDigitChar (n : ℕ) : Char :=
  if n < 10 then Char.ofNat ('0'.toNat + n)
  else Char.ofNat ('a'.toNat + (n - 10))

/-- JavaScript Number.prototype.toString(16) on a nonnegative integer:
lowercase base-16 digits, a single zero digit for zero. -/
def natToHexChars (n : ℕ) : List Char :=
  if n < 16 then [hexDigitChar n]
  else natToHexChars (n / 16) ++ [hexDigitChar (n % 16)]
decreasing_by exact Nat.div_lt_self (by omega) (by omega)

/-- JavaScript padStart(2, "0") on a digit string. -/
def padStart2Zero (s : List Char) : List Char :=
  if s.length < 2 then List.replicate (2 - s.length) '0' ++ s else s

/-- generateCSRFToken with its randomness passed in: outside a browser,
32 draws of Math.floor(Math.random() * 16) each rendered in hex and
joined; in a browser, 32 random bytes each rendered as two padded hex
digits and joined. -/
def generateCSRFToken (isBrowser : Bool) (serverRandoms : List ℕ)
    (browserBytes : List ℕ) : List Char :=
  if !isBrowser then
    (serverRandoms.map natToHexChars).flatten
  else
    (browserBytes.map (fun b => padStart2Zero (natToHexChars b))).flatten

/-- A lowercase hexadecimal digit. -/
def isHexDigitChar (c : Char) : Bool :=
  ('0' ≤ c && c ≤ '9') || ('a' ≤ c && c ≤ 'f')

end Security

namespace Security

/-- The UTF-8 bytes of one character: the composite
unescape(encodeURIComponent(s)) maps a string to its UTF-8 byte string
one scalar value at a time. -/
def utf8EncodeChar (c : Char) : List ℕ :=
  let n := c.toNat
  if n < 0x80 then [n]
  else if n < 0x800 then [0xC0 + n / 0x40, 0x80 + n % 0x40]
  else if n < 0x10000 then
    [0xE0 + n / 0x1000, 0x80 + (n / 0x40) % 0x40, 0x80 + n % 0x40]
  else
    [0xF0 + n / 0x40000, 0x80 + (n / 0x1000) % 0x40, 0x80 + (n / 0x40) % 0x40,
      0x80 + n % 0x40]

/-- The UTF-8 byte string of a string. -/
def utf8Encode (s : List Char) : List ℕ := (s.map utf8EncodeChar).flatten

/-- Decoding one UTF-8 sequence at the head of a byte string, as
decodeURIComponent(escape(s)) performs it: the scalar value and the
remaining bytes, or none for a stray continuation byte, a truncated or
overlong sequence, a surrogate code point or a value beyond 0x10FFFF. -/
def utf8DecodeHead : List ℕ → Option (ℕ × List ℕ)
  | [] => none
  | b0 :: bs =>
    if b0 < 0x80 then some (b0, bs)
    else if b0 < 0xC0 then none
    else if b0 < 0xE0 then
      match bs with
      | b1 :: bs1 =>
          if 0x80 ≤ b1 ∧ b1 < 0xC0 then
            let n := (b0 - 0xC0) * 0x40 + (b1 - 0x80)
            if 0x80 ≤ n then some (n, bs1) else none
          else none
      | [] => none
    else if b0 < 0xF0 then
      match bs with
      | b1 :: b2 :: bs2 =>
          if (0x80 ≤ b1 ∧ b1 < 0xC0) ∧ (0x80 ≤ b2 ∧ b2 < 0xC0) then
            let n := (b0 - 0xE0) * 0x1000 + (b1 - 0x80) * 0x40 + (b2 - 0x80)
            if 0x800 ≤ n ∧ ¬(0xD800 ≤ n ∧ n ≤ 0xDFFF) then some (n, bs2)
            else none
          else none
      | _ => none
    else if b0 < 0xF8 then
      match bs with
      | b1 :: b2 :: b3 :: bs3 =>
          if (0x80 ≤ b1 ∧ b1 < 0xC0) ∧ (0x80 ≤ b2 ∧ b2 < 0xC0)
              ∧ (0x80 ≤ b3 ∧ b3 < 0xC0) then
            let n := (b0 - 0xF0) * 0x40000 + (b1 - 0x80) * 0x1000
                      + (b2 - 0x80) * 0x40 + (b3 - 0x80)
            if 0x10000 ≤ n ∧ n ≤ 0x10FFFF then some (n, bs3) else none
          else none
      | _ => none
    else none

/-- The UTF-8 decoding loop, with a fuel bound on the number of decoded
characters; every decoded sequence consumes at least one byte, so a fuel
of the byte count never runs out. -/
def utf8DecodeAux : ℕ → List ℕ → Option (List Char)
  | _, [] => some []
  | 0, _ :: _ => none
  | fuel + 1, bytes =>
      match utf8DecodeHead bytes with
      | some (n, rest) =>
          match utf8DecodeAux fuel rest with
          | some cs => some (Char.ofNat n :: cs)
          | none => none
      | none => none

/-- UTF-8 decoding of a byte string as decodeURIComponent(escape(s))
performs it; none models a thrown URIError. -/
def utf8Decode (bytes : List ℕ) : Option (List Char) :=
  utf8DecodeAux bytes.length bytes

/-- The base64 alphabet of btoa and atob. -/
def base64Alphabet : List Char :=
  "ABCDEFGHIJKLMNOPQRSTUVWXYZabcdefghijklmnopqrstuvwxyz0123456789+/".data

/-- The base64 character of a 6-bit value. -/
def b64Char (n : ℕ) : Char := base64Alphabet.getD n '='

/-- The 6-bit value of a base64 character, none for anything outside the
alphabet. -/
def b64Index (c : Char) : Option ℕ :=
  base64Alphabet.findIdx? (fun a => a = c)

/-- btoa: standard base64 of a byte string, with = padding. -/
def base64Encode : List ℕ → List Char
  | [] => []
  | [a] => [b64Char (a / 4), b64Char (a % 4 * 16), '=', '=']
  | [a, b] =>
      [b64Char (a / 4), b64Char (a % 4 * 16 + b / 16), b64Char (b % 16 * 4), '=']
  | a :: b :: c :: rest =>
      b64Char (a / 4) :: b64Char (a % 4 * 16 + b / 16)
        :: b64Char (b % 16 * 4 + c / 64) :: b64Char (c % 64)
        :: base64Encode rest

/-- atob: decode base64, none on strings it rejects. -/
def base64Decode : List Char → Option (List ℕ)
  | [] => some []
  | c1 :: c2 :: c3 :: c4 :: rest =>
      match b64Index c1, b64Index c2 with
      | some v1, some v2 =>
          if c3 = '=' then
            if c4 = '=' ∧ rest = [] then some [v1 * 4 + v2 / 16] else none
          else
            match b64Index c3 with
            | some v3 =>
                if c4 = '=' then
                  if rest = [] then
                    some [v1 * 4 + v2 / 16, v2 % 16 * 16 + v3 / 4]
                  else none
                else
                  match b64Index c4 with
                  | some v4 =>
                      match base64Decode rest with
                      | some ds =>
                          some ((v1 * 4 + v2 / 16) :: (v2 % 16 * 16 + v3 / 4)
                            :: (v3 % 4 * 64 + v4) :: ds)
                      | none => none
                  | none => none
            | none => none
      | _, _ => none
  | _ => none

/-- Browser localStorage as a total map from keys to optional stored
strings. -/
def Storage : Type := List Char → Option (List Char)

/-- A storage with nothing stored. -/
def emptyStorage : Storage := fun _ => none

/-- localStorage.setItem. -/
def storageSet (st : Storage) (k v : List Char) : Storage :=
  fun q => if q = k then some v else st q

/-- localStorage.removeItem. -/
def storageRemoveKey (st : Storage) (k : List Char) : Storage :=
  fun q => if q = k then none else st q

/-- secureStorage.setItem: store btoa(unescape(encodeURIComponent(value)))
under the prefixed key secure_ plus key. -/
def secureSetItem (st : Storage) (key value : List Char) : Storage :=
  storageSet st ("secure_".data ++ key) (base64Encode (utf8Encode value))

/-- secureStorage.getItem: null when the slot is absent or falsy, and
null when decoding throws, else the decoded value. -/
def secureGetItem (st : Storage) (key : List Char) : Option (List Char) :=
  match st ("secure_".data ++ key) with
  | none => none
  | some encoded =>
      if encoded = [] then none
      else
        match base64Decode encoded with
        | some bytes =>
            match utf8Decode bytes with
            | some value => some value
            | none => none
        | none => none

/-- secureStorage.removeItem. -/
def secureRemoveItem (st : Storage) (key : List Char) : Storage :=
  storageRemoveKey st ("secure_".data ++ key)

end Security

/-! ## Theorems -/

theorem calculateTotal_eq_subtotalSpec (cartItems : List Checkout.CartItem) :
    Checkout.calculateTotal cartItems = Checkout.subtotalSpec cartItems := by
  have h : ∀ (l : List Checkout.CartItem) (a : ℚ),
      l.foldl (fun total item => total + item.price * item.quantity) a
        = a + Checkout.subtotalSpec l := by
    intro l
    induction l with
    | nil => intro a; simp [Checkout.subtotalSpec]
    | cons x xs ih =>
        intro a
        simp only [List.foldl_cons, Checkout.subtotalSpec, List.map_cons,
          List.sum_cons] at *
        rw [ih]
        ring
  simpa using h cartItems 0

/-- C2: on the checkout page, the displayed final order total is
subtotal + GST + delivery charges, where the subtotal is the sum over the
cart of the parsed price times the quantity, GST is 18 percent of the
subtotal, delivery is 0 when the subtotal is strictly greater than 5000 and
200 otherwise; in particular a subtotal of exactly 5000 is charged 200. -/
theorem checkout_final_total_correct (cartItems : List Checkout.CartItem) :
    Checkout.finalTotal cartItems
      = Checkout.subtotalSpec cartItems
        + (18/100) * Checkout.subtotalSpec cartItems
        + (if Checkout.subtotalSpec cartItems > 5000 then 0 else 200)
    ∧ (Checkout.subtotalSpec cartItems = 5000 →
        Checkout.deliveryCharges (Checkout.calculateTotal cartItems) = 200) := by
  have htot := calculateTotal_eq_subtotalSpec cartItems
  constructor
  · simp only [Checkout.finalTotal, Checkout.gst, Checkout.deliveryCharges, htot]
    ring_nf
  · intro h5
    simp [Checkout.deliveryCharges, htot, h5]

/-- Witness for C2 at a one-item cart whose subtotal is exactly 5000. -/
theorem checkout_final_total_correct_witness :
    Checkout.deliveryCharges (Checkout.calculateTotal [⟨5000, 1⟩]) = 200 :=
  (checkout_final_total_correct [⟨5000, 1⟩]).2 (by
    norm_num [Checkout.subtotalSpec])

/-- C4: in the box configurator, the derived volume is
width * height * depth / 1000 rendered to two decimal places, the unit
price is round((25 + volume * 0.5) * 1.2) for corrugated material and
round(25 + volume * 0.5) for every other material, and the estimated total
is unit price times quantity. -/
theorem configurator_pricing_correct (config : Configurator.BoxConfiguration) :
    Configurator.calculatedVolume config
      = toFixed2 (config.width * config.height * config.depth / 1000)
    ∧ Configurator.estimatedPrice config
      = (if config.material = Configurator.Material.corrugated
          then jsRound ((25 + Configurator.calculatedVolume config * (1/2)) * (12/10))
          else jsRound (25 + Configurator.calculatedVolume config * (1/2)))
    ∧ Configurator.totalPrice config
      = (Configurator.estimatedPrice config : ℚ) * config.quantity := by
  refine ⟨rfl, ?_, rfl⟩
  by_cases hm : config.material = Configurator.Material.corrugated
  · simp [Configurator.estimatedPrice, hm]
  · simp [Configurator.estimatedPrice, hm]

theorem drop_append_right_of_le (l t : List Char) (i : ℕ) (h : l.length ≤ i) :
    (l ++ t).drop i = t.drop (i - l.length) := by
  induction l generalizing i with
  | nil => simp
  | cons a as ih =>
      match i with
      | Nat.succ j =>
        simp only [List.cons_append, List.drop_succ_cons, List.length_cons]
        rw [ih j (by simpa using h)]
        congr 1
        omega

theorem get?_append_right_of_le (l t : List Char) (i : ℕ) (h : l.length ≤ i) :
    (l ++ t).get? i = t.get? (i - l.length) := by
  simp [List.get?_eq_getElem?, List.getElem?_append_right h]

theorem get?_append_left_of_lt (l t : List Char) (i : ℕ) (h : i < l.length) :
    (l ++ t).get? i = l.get? i := by
  simp [List.get?_eq_getElem?, List.getElem?_append, h]

theorem htmlEntity_no_raw (c : Char) :
    ∀ c' ∈ Security.htmlEntity c,
      c' ≠ '<' ∧ c' ≠ '>' ∧ c' ≠ '"' ∧ c' ≠ '\'' ∧ c' ≠ '/' := by
  intro c' hm
  unfold Security.htmlEntity at hm
  split_ifs at hm with h1 h2 h3 h4 h5 h6
  · exact (by decide : ∀ x ∈ "&amp;".data, x ≠ '<' ∧ x ≠ '>' ∧ x ≠ '"' ∧ x ≠ '\'' ∧ x ≠ '/') c' hm
  · exact (by decide : ∀ x ∈ "&lt;".data, x ≠ '<' ∧ x ≠ '>' ∧ x ≠ '"' ∧ x ≠ '\'' ∧ x ≠ '/') c' hm
  · exact (by decide : ∀ x ∈ "&gt;".data, x ≠ '<' ∧ x ≠ '>' ∧ x ≠ '"' ∧ x ≠ '\'' ∧ x ≠ '/') c' hm
  · exact (by decide : ∀ x ∈ "&quot;".data, x ≠ '<' ∧ x ≠ '>' ∧ x ≠ '"' ∧ x ≠ '\'' ∧ x ≠ '/') c' hm
  · exact (by decide : ∀ x ∈ "&#x27;".data, x ≠ '<' ∧ x ≠ '>' ∧ x ≠ '"' ∧ x ≠ '\'' ∧ x ≠ '/') c' hm
  · exact (by decide : ∀ x ∈ "&#x2F;".data, x ≠ '<' ∧ x ≠ '>' ∧ x ≠ '"' ∧ x ≠ '\'' ∧ x ≠ '/') c' hm
  · simp only [List.mem_singleton] at hm
    subst hm
    exact ⟨h2, h3, h4, h5, h6⟩

theorem htmlEntity_amp (c : Char) (i : ℕ)
    (h : (Security.htmlEntity c).get? i = some '&') :
    i = 0 ∧ Security.htmlEntity c ∈ Security.entityStrings := by
  unfold Security.htmlEntity at h ⊢
  split_ifs at h ⊢ with h1 h2 h3 h4 h5 h6
  · exact ⟨by rcases i with _|_|_|_|_|_|n <;> simp_all [List.get?], by decide⟩
  · exact ⟨by rcases i with _|_|_|_|_|_|n <;> simp_all [List.get?], by decide⟩
  · exact ⟨by rcases i with _|_|_|_|_|_|n <;> simp_all [List.get?], by decide⟩
  · exact ⟨by rcases i with _|_|_|_|_|_|n <;> simp_all [List.get?], by decide⟩
  · exact ⟨by rcases i with _|_|_|_|_|_|n <;> simp_all [List.get?], by decide⟩
  · exact ⟨by rcases i with _|_|_|_|_|_|n <;> simp_all [List.get?], by decide⟩
  · exfalso
    rcases i with _|n
    · simp only [List.get?] at h
      exact h1 (by simpa using h)
    · simp [List.get?] at h

theorem sanitizeHtml_cons (c : Char) (rest : List Char) :
    Security.sanitizeHtml (c :: rest)
      = Security.htmlEntity c ++ Security.sanitizeHtml rest := by
  simp [Security.sanitizeHtml]

theorem sanitizeHtml_amp (input : List Char) :
    ∀ i : ℕ, (Security.sanitizeHtml input).get? i = some '&' →
      ∃ e ∈ Security.entityStrings, e <+: (Security.sanitizeHtml input).drop i := by
  induction input with
  | nil => intro i h; simp [Security.sanitizeHtml, List.get?] at h
  | cons c rest ih =>
      intro i h
      rw [sanitizeHtml_cons] at h ⊢
      by_cases hlen : (Security.htmlEntity c).length ≤ i
      · rw [get?_append_right_of_le _ _ _ hlen] at h
        obtain ⟨e, he, hpre⟩ := ih (i - (Security.htmlEntity c).length) h
        refine ⟨e, he, ?_⟩
        rw [drop_append_right_of_le _ _ _ hlen]
        exact hpre
      · push_neg at hlen
        rw [get?_append_left_of_lt _ _ _ hlen] at h
        obtain ⟨h0, hmem⟩ := htmlEntity_amp c i h
        subst h0
        refine ⟨Security.htmlEntity c, hmem, ?_⟩
        simp only [List.drop_zero]
        exact List.prefix_append (Security.htmlEntity c) (Security.sanitizeHtml rest)

/-- C6: sanitizeHtml replaces each occurrence of the six characters
ampersand, angle brackets, double quote, single quote and slash with its
HTML entity and keeps every other character; the output therefore contains
no raw angle bracket, quote or slash character, and every ampersand in the
output begins one of the six entities. -/
theorem sanitizeHtml_correct (input : List Char) :
    Security.sanitizeHtml input
      = (input.map (fun c =>
          if c = '&' then "&amp;".data
          else if c = '<' then "&lt;".data
          else if c = '>' then "&gt;".data
          else if c = '"' then "&quot;".data
          else if c = '\'' then "&#x27;".data
          else if c = '/' then "&#x2F;".data
          else [c])).flatten
    ∧ '<' ∉ Security.sanitizeHtml input
    ∧ '>' ∉ Security.sanitizeHtml input
    ∧ '"' ∉ Security.sanitizeHtml input
    ∧ '\'' ∉ Security.sanitizeHtml input
    ∧ '/' ∉ Security.sanitizeHtml input
    ∧ ∀ i : ℕ, (Security.sanitizeHtml input).get? i = some '&' →
        ∃ e ∈ Security.entityStrings, e <+: (Security.sanitizeHtml input).drop i := by
  have hmem : ∀ c', c' ∈ Security.sanitizeHtml input →
      c' ≠ '<' ∧ c' ≠ '>' ∧ c' ≠ '"' ∧ c' ≠ '\'' ∧ c' ≠ '/' := by
    intro c' hc'
    simp only [Security.sanitizeHtml, List.mem_flatten, List.mem_map] at hc'
    obtain ⟨l, ⟨c, hcin, rfl⟩, hc'l⟩ := hc'
    exact htmlEntity_no_raw c c' hc'l
  refine ⟨rfl, ?_, ?_, ?_, ?_, ?_, sanitizeHtml_amp input⟩
  · exact fun h => (hmem _ h).1 rfl
  · exact fun h => (hmem _ h).2.1 rfl
  · exact fun h => (hmem _ h).2.2.1 rfl
  · exact fun h => (hmem _ h).2.2.2.1 rfl
  · exact fun h => (hmem _ h).2.2.2.2 rfl

/-- Witness for C6 at the one-character input consisting of an
ampersand. -/
theorem sanitizeHtml_correct_witness :
    ∃ e ∈ Security.entityStrings,
      e <+: (Security.sanitizeHtml "&".data).drop 0 :=
  (sanitizeHtml_correct "&".data).2.2.2.2.2.2 0 (by decide)

/-- C7: validatePassword accepts exactly the passwords with at least 8
characters and at least one uppercase letter, lowercase letter, digit and
special character; the score is at most 7, equal to the three length
threshold points at 8, 12, 16 plus one point per present character class;
and the strength label is weak iff score at most 2, medium iff 3 or 4,
strong iff 5 or 6, and very strong iff exactly 7. -/
theorem validatePassword_correct (password : List Char) :
    ((Security.validatePassword password).isValid = true ↔
      (8 ≤ password.length
        ∧ password.any Security.isUpperAZ = true
        ∧ password.any Security.isLowerAZ = true
        ∧ password.any Security.isDigit09 = true
        ∧ password.any Security.isSpecialChar = true))
    ∧ (Security.validatePassword password).score ≤ 7
    ∧ (Security.validatePassword password).score
        = ((if 8 ≤ password.length then 1 else 0)
          + (if 12 ≤ password.length then 1 else 0)
          + (if 16 ≤ password.length then 1 else 0)
          + (if password.any Security.isUpperAZ then 1 else 0)
          + (if password.any Security.isLowerAZ then 1 else 0)
          + (if password.any Security.isDigit09 then 1 else 0)
          + (if password.any Security.isSpecialChar then 1 else 0))
    ∧ ((Security.validatePassword password).strength = Security.Strength.weak
        ↔ (Security.validatePassword password).score ≤ 2)
    ∧ ((Security.validatePassword password).strength = Security.Strength.medium
        ↔ (3 ≤ (Security.validatePassword password).score
            ∧ (Security.validatePassword password).score ≤ 4))
    ∧ ((Security.validatePassword password).strength = Security.Strength.strong
        ↔ (5 ≤ (Security.validatePassword password).score
            ∧ (Security.validatePassword password).score ≤ 6))
    ∧ ((Security.validatePassword password).strength = Security.Strength.veryStrong
        ↔ (Security.validatePassword password).score = 7) := by
  have hvalid : (Security.validatePassword password).isValid = true ↔
      (8 ≤ password.length
        ∧ password.any Security.isUpperAZ = true
        ∧ password.any Security.isLowerAZ = true
        ∧ password.any Security.isDigit09 = true
        ∧ password.any Security.isSpecialChar = true) := by
    have h0 : (Security.validatePassword password).isValid
        = decide ((Security.passwordErrors password).length = 0) := rfl
    rw [h0, decide_eq_true_iff]
    simp only [Security.passwordErrors, Security.passwordPolicy, Bool.true_and,
      List.length_append]
    split_ifs <;> simp_all
  have hscore : Security.passwordScore password
      = ((if 8 ≤ password.length then 1 else 0)
        + (if 12 ≤ password.length then 1 else 0)
        + (if 16 ≤ password.length then 1 else 0)
        + (if password.any Security.isUpperAZ then 1 else 0)
        + (if password.any Security.isLowerAZ then 1 else 0)
        + (if password.any Security.isDigit09 then 1 else 0)
        + (if password.any Security.isSpecialChar then 1 else 0)) := by
    simp only [Security.passwordScore, Security.passwordPolicy, Bool.true_and]
    rcases hU : password.any Security.isUpperAZ <;>
      rcases hL : password.any Security.isLowerAZ <;>
        rcases hN : password.any Security.isDigit09 <;>
          rcases hS : password.any Security.isSpecialChar <;>
            simp only [hU, hL, hN, hS, Bool.not_true, Bool.not_false, if_true,
              if_false, ite_true, ite_false, Bool.false_eq_true,
              Bool.true_eq_false] <;>
            split_ifs <;> omega
  have hsc7 : Security.passwordScore password ≤ 7 := by
    rw [hscore]; split_ifs <;> omega
  refine ⟨hvalid, hsc7, hscore, ?_, ?_, ?_, ?_⟩
  · show Security.passwordStrength password = _ ↔ Security.passwordScore password ≤ 2
    simp only [Security.passwordStrength]
    split_ifs with h1 h2 h3
    · exact iff_of_true rfl h1
    · exact iff_of_false (by decide) (by omega)
    · exact iff_of_false (by decide) (by omega)
    · exact iff_of_false (by decide) (by omega)
  · show Security.passwordStrength password = _ ↔
      (3 ≤ Security.passwordScore password ∧ Security.passwordScore password ≤ 4)
    simp only [Security.passwordStrength]
    split_ifs with h1 h2 h3
    · exact iff_of_false (by decide) (by omega)
    · exact iff_of_true rfl (by omega)
    · exact iff_of_false (by decide) (by omega)
    · exact iff_of_false (by decide) (by omega)
  · show Security.passwordStrength password = _ ↔
      (5 ≤ Security.passwordScore password ∧ Security.passwordScore password ≤ 6)
    simp only [Security.passwordStrength]
    split_ifs with h1 h2 h3
    · exact iff_of_false (by decide) (by omega)
    · exact iff_of_false (by decide) (by omega)
    · exact iff_of_true rfl (by omega)
    · exact iff_of_false (by decide) (by omega)
  · show Security.passwordStrength password = _ ↔ Security.passwordScore password = 7
    simp only [Security.passwordStrength]
    split_ifs with h1 h2 h3
    · exact iff_of_false (by decide) (by omega)
    · exact iff_of_false (by decide) (by omega)
    · exact iff_of_false (by decide) (by omega)
    · exact iff_of_true rfl (by omega)

/-- Witness for C7 at a concrete accepted password. -/
theorem validatePassword_correct_witness :
    (Security.validatePassword "Password1!".data).isValid = true :=
  ((validatePassword_correct "Password1!".data).1).mpr (by decide)

set_option maxHeartbeats 1600000 in
/-- C3: validateForm returns true iff every required billing field is
non-empty, every required shipping field is non-empty when the shipping
address differs from billing, the billing email matches the email regex,
the digits of the billing phone (and shipping phone when separate) match
the phone regex, the billing pincode (and shipping pincode when separate)
matches the pincode regex, and the terms were agreed to; otherwise it
returns false with a non-null error message; and the step-1 Continue to
Payment action advances the wizard to step 2 only when validateForm
returns true. -/
theorem validateForm_correct (o : Checkout.OrderData) :
    ((Checkout.validateForm o).1 = true ↔
      (o.billingAddress.firstName ≠ "" ∧ o.billingAddress.lastName ≠ ""
        ∧ o.billingAddress.address ≠ "" ∧ o.billingAddress.city ≠ ""
        ∧ o.billingAddress.state ≠ "" ∧ o.billingAddress.pincode ≠ ""
        ∧ o.billingAddress.phone ≠ "" ∧ o.billingAddress.email ≠ ""
        ∧ (o.sameAsBilling = false →
            (o.shippingAddress.firstName ≠ "" ∧ o.shippingAddress.lastName ≠ ""
              ∧ o.shippingAddress.address ≠ "" ∧ o.shippingAddress.city ≠ ""
              ∧ o.shippingAddress.state ≠ "" ∧ o.shippingAddress.pincode ≠ ""
              ∧ o.shippingAddress.phone ≠ ""))
        ∧ Checkout.emailRegexTest o.billingAddress.email.data = true
        ∧ Checkout.phoneRegexTest
            (o.billingAddress.phone.data.filter Security.isDigit09) = true
        ∧ (o.sameAsBilling = false →
            Checkout.phoneRegexTest
              (o.shippingAddress.phone.data.filter Security.isDigit09) = true)
        ∧ Checkout.pincodeRegexTest o.billingAddress.pincode.data = true
        ∧ (o.sameAsBilling = false →
            Checkout.pincodeRegexTest o.shippingAddress.pincode.data = true)
        ∧ o.agreedToTerms = true))
    ∧ ((Checkout.validateForm o).1 = false → (Checkout.validateForm o).2 ≠ none)
    ∧ ((Checkout.validateForm o).1 = true → (Checkout.validateForm o).2 = none)
    ∧ (∀ step : ℕ, Checkout.continueToPayment o step ≠ step →
        ((Checkout.validateForm o).1 = true
          ∧ Checkout.continueToPayment o step = 2))
    ∧ ((Checkout.validateForm o).1 = true → Checkout.continueToPayment o 1 = 2) := by
  have hiff : (Checkout.validateForm o).1 = true ↔
      (o.billingAddress.firstName ≠ "" ∧ o.billingAddress.lastName ≠ ""
        ∧ o.billingAddress.address ≠ "" ∧ o.billingAddress.city ≠ ""
        ∧ o.billingAddress.state ≠ "" ∧ o.billingAddress.pincode ≠ ""
        ∧ o.billingAddress.phone ≠ "" ∧ o.billingAddress.email ≠ ""
        ∧ (o.sameAsBilling = false →
            (o.shippingAddress.firstName ≠ "" ∧ o.shippingAddress.lastName ≠ ""
              ∧ o.shippingAddress.address ≠ "" ∧ o.shippingAddress.city ≠ ""
              ∧ o.shippingAddress.state ≠ "" ∧ o.shippingAddress.pincode ≠ ""
              ∧ o.shippingAddress.phone ≠ ""))
        ∧ Checkout.emailRegexTest o.billingAddress.email.data = true
        ∧ Checkout.phoneRegexTest
            (o.billingAddress.phone.data.filter Security.isDigit09) = true
        ∧ (o.sameAsBilling = false →
            Checkout.phoneRegexTest
              (o.shippingAddress.phone.data.filter Security.isDigit09) = true)
        ∧ Checkout.pincodeRegexTest o.billingAddress.pincode.data = true
        ∧ (o.sameAsBilling = false →
            Checkout.pincodeRegexTest o.shippingAddress.pincode.data = true)
        ∧ o.agreedToTerms = true) := by
    constructor
    · intro hv
      unfold Checkout.validateForm at hv
      by_cases h1 : o.billingAddress.firstName = ""
      · rw [if_pos h1] at hv
        exact absurd hv (by simp)
      rw [if_neg h1] at hv
      by_cases h2 : o.billingAddress.lastName = ""
      · rw [if_pos h2] at hv
        exact absurd hv (by simp)
      rw [if_neg h2] at hv
      by_cases h3 : o.billingAddress.address = ""
      · rw [if_pos h3] at hv
        exact absurd hv (by simp)
      rw [if_neg h3] at hv
      by_cases h4 : o.billingAddress.city = ""
      · rw [if_pos h4] at hv
        exact absurd hv (by simp)
      rw [if_neg h4] at hv
      by_cases h5 : o.billingAddress.state = ""
      · rw [if_pos h5] at hv
        exact absurd hv (by simp)
      rw [if_neg h5] at hv
      by_cases h6 : o.billingAddress.pincode = ""
      · rw [if_pos h6] at hv
        exact absurd hv (by simp)
      rw [if_neg h6] at hv
      by_cases h7 : o.billingAddress.phone = ""
      · rw [if_pos h7] at hv
        exact absurd hv (by simp)
      rw [if_neg h7] at hv
      by_cases h8 : o.billingAddress.email = ""
      · rw [if_pos h8] at hv
        exact absurd hv (by simp)
      rw [if_neg h8] at hv
      by_cases h9 : (!o.sameAsBilling && decide (o.shippingAddress.firstName = "")) = true
      · rw [if_pos h9] at hv
        exact absurd hv (by simp)
      rw [if_neg h9] at hv
      by_cases h10 : (!o.sameAsBilling && decide (o.shippingAddress.lastName = "")) = true
      · rw [if_pos h10] at hv
        exact absurd hv (by simp)
      rw [if_neg h10] at hv
      by_cases h11 : (!o.sameAsBilling && decide (o.shippingAddress.address = "")) = true
      · rw [if_pos h11] at hv
        exact absurd hv (by simp)
      rw [if_neg h11] at hv
      by_cases h12 : (!o.sameAsBilling && decide (o.shippingAddress.city = "")) = true
      · rw [if_pos h12] at hv
        exact absurd hv (by simp)
      rw [if_neg h12] at hv
      by_cases h13 : (!o.sameAsBilling && decide (o.shippingAddress.state = "")) = true
      · rw [if_pos h13] at hv
        exact absurd hv (by simp)
      rw [if_neg h13] at hv
      by_cases h14 : (!o.sameAsBilling && decide (o.shippingAddress.pincode = "")) = true
      · rw [if_pos h14] at hv
        exact absurd hv (by simp)
      rw [if_neg h14] at hv
      by_cases h15 : (!o.sameAsBilling && decide (o.shippingAddress.phone = "")) = true
      · rw [if_pos h15] at hv
        exact absurd hv (by simp)
      rw [if_neg h15] at hv
      by_cases h16 : (!Checkout.emailRegexTest o.billingAddress.email.data) = true
      · rw [if_pos h16] at hv
        exact absurd hv (by simp)
      rw [if_neg h16] at hv
      by_cases h17 : (!Checkout.phoneRegexTest (o.billingAddress.phone.data.filter Security.isDigit09)) = true
      · rw [if_pos h17] at hv
        exact absurd hv (by simp)
      rw [if_neg h17] at hv
      by_cases h18 : (!o.sameAsBilling && !Checkout.phoneRegexTest (o.shippingAddress.phone.data.filter Security.isDigit09)) = true
      · rw [if_pos h18] at hv
        exact absurd hv (by simp)
      rw [if_neg h18] at hv
      by_cases h19 : (!Checkout.pincodeRegexTest o.billingAddress.pincode.data) = true
      · rw [if_pos h19] at hv
        exact absurd hv (by simp)
      rw [if_neg h19] at hv
      by_cases h20 : (!o.sameAsBilling && !Checkout.pincodeRegexTest o.shippingAddress.pincode.data) = true
      · rw [if_pos h20] at hv
        exact absurd hv (by simp)
      rw [if_neg h20] at hv
      by_cases h21 : (!o.agreedToTerms) = true
      · rw [if_pos h21] at hv
        exact absurd hv (by simp)
      rw [if_neg h21] at hv
      refine ⟨h1, h2, h3, h4, h5, h6, h7, h8, ?_, ?_, ?_, ?_, ?_, ?_, ?_⟩
      · intro hs
        refine ⟨?_, ?_, ?_, ?_, ?_, ?_, ?_⟩
        · exact fun heq => h9 (by rw [hs, heq]; decide)
        · exact fun heq => h10 (by rw [hs, heq]; decide)
        · exact fun heq => h11 (by rw [hs, heq]; decide)
        · exact fun heq => h12 (by rw [hs, heq]; decide)
        · exact fun heq => h13 (by rw [hs, heq]; decide)
        · exact fun heq => h14 (by rw [hs, heq]; decide)
        · exact fun heq => h15 (by rw [hs, heq]; decide)
      · simpa using h16
      · simpa using h17
      · intro hs
        simpa [hs] using h18
      · simpa using h19
      · intro hs
        simpa [hs] using h20
      · simpa using h21
    · intro hR
      obtain ⟨hb1, hb2, hb3, hb4, hb5, hb6, hb7, hb8, hship, hemail, hphoneB,
        hphoneS, hpinB, hpinS, hterms⟩ := hR
      have hships : ∀ (x : String), (o.sameAsBilling = false → x ≠ "") →
          ¬((!o.sameAsBilling && decide (x = "")) = true) := by
        intro x hx hc
        rw [Bool.and_eq_true] at hc
        obtain ⟨hs, hxe⟩ := hc
        rw [Bool.not_eq_true'] at hs
        exact hx hs (by simpa using hxe)
      have hshipb : ∀ (p : Bool), (o.sameAsBilling = false → p = true) →
          ¬((!o.sameAsBilling && !p) = true) := by
        intro p hp hc
        rw [Bool.and_eq_true] at hc
        obtain ⟨hs, hpc⟩ := hc
        rw [Bool.not_eq_true'] at hs
        rw [hp hs] at hpc
        exact absurd hpc (by decide)
      unfold Checkout.validateForm
      rw [if_neg hb1, if_neg hb2, if_neg hb3, if_neg hb4, if_neg hb5,
        if_neg hb6, if_neg hb7, if_neg hb8,
        if_neg (hships _ (fun hs => (hship hs).1)),
        if_neg (hships _ (fun hs => (hship hs).2.1)),
        if_neg (hships _ (fun hs => (hship hs).2.2.1)),
        if_neg (hships _ (fun hs => (hship hs).2.2.2.1)),
        if_neg (hships _ (fun hs => (hship hs).2.2.2.2.1)),
        if_neg (hships _ (fun hs => (hship hs).2.2.2.2.2.1)),
        if_neg (hships _ (fun hs => (hship hs).2.2.2.2.2.2)),
        if_neg (by simp [hemail]), if_neg (by simp [hphoneB]),
        if_neg (hshipb _ hphoneS), if_neg (by simp [hpinB]),
        if_neg (hshipb _ hpinS), if_neg (by simp [hterms])]
  have hshape : Checkout.validateForm o = (true, none)
      ∨ ∃ msg, Checkout.validateForm o = (false, some msg) := by
    unfold Checkout.validateForm
    by_cases g1 : o.billingAddress.firstName = ""
    · rw [if_pos g1]
      exact Or.inr ⟨_, rfl⟩
    rw [if_neg g1]
    by_cases g2 : o.billingAddress.lastName = ""
    · rw [if_pos g2]
      exact Or.inr ⟨_, rfl⟩
    rw [if_neg g2]
    by_cases g3 : o.billingAddress.address = ""
    · rw [if_pos g3]
      exact Or.inr ⟨_, rfl⟩
    rw [if_neg g3]
    by_cases g4 : o.billingAddress.city = ""
    · rw [if_pos g4]
      exact Or.inr ⟨_, rfl⟩
    rw [if_neg g4]
    by_cases g5 : o.billingAddress.state = ""
    · rw [if_pos g5]
      exact Or.inr ⟨_, rfl⟩
    rw [if_neg g5]
    by_cases g6 : o.billingAddress.pincode = ""
    · rw [if_pos g6]
      exact Or.inr ⟨_, rfl⟩
    rw [if_neg g6]
    by_cases g7 : o.billingAddress.phone = ""
    · rw [if_pos g7]
      exact Or.inr ⟨_, rfl⟩
    rw [if_neg g7]
    by_cases g8 : o.billingAddress.email = ""
    · rw [if_pos g8]
      exact Or.inr ⟨_, rfl⟩
    rw [if_neg g8]
    by_cases g9 : (!o.sameAsBilling && decide (o.shippingAddress.firstName = "")) = true
    · rw [if_pos g9]
      exact Or.inr ⟨_, rfl⟩
    rw [if_neg g9]
    by_cases g10 : (!o.sameAsBilling && decide (o.shippingAddress.lastName = "")) = true
    · rw [if_pos g10]
      exact Or.inr ⟨_, rfl⟩
    rw [if_neg g10]
    by_cases g11 : (!o.sameAsBilling && decide (o.shippingAddress.address = "")) = true
    · rw [if_pos g11]
      exact Or.inr ⟨_, rfl⟩
    rw [if_neg g11]
    by_cases g12 : (!o.sameAsBilling && decide (o.shippingAddress.city = "")) = true
    · rw [if_pos g12]
      exact Or.inr ⟨_, rfl⟩
    rw [if_neg g12]
    by_cases g13 : (!o.sameAsBilling && decide (o.shippingAddress.state = "")) = true
    · rw [if_pos g13]
      exact Or.inr ⟨_, rfl⟩
    rw [if_neg g13]
    by_cases g14 : (!o.sameAsBilling && decide (o.shippingAddress.pincode = "")) = true
    · rw [if_pos g14]
      exact Or.inr ⟨_, rfl⟩
    rw [if_neg g14]
    by_cases g15 : (!o.sameAsBilling && decide (o.shippingAddress.phone = "")) = true
    · rw [if_pos g15]
      exact Or.inr ⟨_, rfl⟩
    rw [if_neg g15]
    by_cases g16 : (!Checkout.emailRegexTest o.billingAddress.email.data) = true
    · rw [if_pos g16]
      exact Or.inr ⟨_, rfl⟩
    rw [if_neg g16]
    by_cases g17 : (!Checkout.phoneRegexTest (o.billingAddress.phone.data.filter Security.isDigit09)) = true
    · rw [if_pos g17]
      exact Or.inr ⟨_, rfl⟩
    rw [if_neg g17]
    by_cases g18 : (!o.sameAsBilling && !Checkout.phoneRegexTest (o.shippingAddress.phone.data.filter Security.isDigit09)) = true
    · rw [if_pos g18]
      exact Or.inr ⟨_, rfl⟩
    rw [if_neg g18]
    by_cases g19 : (!Checkout.pincodeRegexTest o.billingAddress.pincode.data) = true
    · rw [if_pos g19]
      exact Or.inr ⟨_, rfl⟩
    rw [if_neg g19]
    by_cases g20 : (!o.sameAsBilling && !Checkout.pincodeRegexTest o.shippingAddress.pincode.data) = true
    · rw [if_pos g20]
      exact Or.inr ⟨_, rfl⟩
    rw [if_neg g20]
    by_cases g21 : (!o.agreedToTerms) = true
    · rw [if_pos g21]
      exact Or.inr ⟨_, rfl⟩
    rw [if_neg g21]
    exact Or.inl rfl
  have herr : ((Checkout.validateForm o).1 = false → (Checkout.validateForm o).2 ≠ none)
      ∧ ((Checkout.validateForm o).1 = true → (Checkout.validateForm o).2 = none) := by
    rcases hshape with h | ⟨msg, h⟩ <;> rw [h] <;> simp
  refine ⟨hiff, herr.1, herr.2, ?_, ?_⟩
  · intro step hne
    by_cases hv : (Checkout.validateForm o).1 = true
    · exact ⟨hv, by simp [Checkout.continueToPayment, hv]⟩
    · exfalso
      apply hne
      simp only [Bool.not_eq_true] at hv
      simp [Checkout.continueToPayment, hv]
  · intro hv
    simp [Checkout.continueToPayment, hv]

/-- Witness for C3: a filled billing form with agreed terms passes
validateForm. -/
theorem validateForm_correct_witness :
    (Checkout.validateForm
      { billingAddress :=
          { firstName := "A", lastName := "B", company := "",
            address := "C", city := "D", state := "maharashtra",
            pincode := "400001", phone := "+91 98765 43210",
            email := "a@b.co" }
        shippingAddress :=
          { firstName := "", lastName := "", company := "", address := "",
            city := "", state := "", pincode := "", phone := "" }
        sameAsBilling := true
        agreedToTerms := true }).1 = true :=
  ((validateForm_correct _).1).mpr (by decide)

theorem allowedCount_cons (r : Security.RateLimitResult)
    (rs : List Security.RateLimitResult) :
    Security.allowedCount (r :: rs)
      = (if r.allowed then 1 else 0) + Security.allowedCount rs := by
  simp only [Security.allowedCount, List.filter_cons]
  split_ifs <;> simp [Nat.add_comm]

theorem runCalls_inwindow_le (maxRequests : ℕ) (windowMs t0 : ℤ)
    (ts : List ℤ) (e : Security.RateLimitEntry)
    (hfr : e.firstRequest = t0) (hw : ∀ t ∈ ts, t - t0 ≤ windowMs) :
    Security.allowedCount
        (Security.runCalls maxRequests windowMs ts (some e)).1
      ≤ maxRequests - e.count := by
  induction ts generalizing e with
  | nil => simp [Security.runCalls, Security.allowedCount]
  | cons t ts ih =>
      have hwt : t - t0 ≤ windowMs := hw t (by simp)
      simp only [Security.runCalls, Security.checkRateLimit]
      rw [if_neg (by omega : ¬(t - e.firstRequest > windowMs))]
      by_cases hc : e.count ≥ maxRequests
      · rw [if_pos hc]
        have hrest := ih e hfr (fun u hu => hw u (List.mem_cons_of_mem _ hu))
        rw [allowedCount_cons]
        simpa using hrest
      · rw [if_neg hc]
        have hrest := ih
          { count := e.count + 1, firstRequest := e.firstRequest,
            lastRequest := t }
          hfr (fun u hu => hw u (List.mem_cons_of_mem _ hu))
        rw [allowedCount_cons]
        simp only [if_pos] at hrest ⊢
        omega

/-- C5 counterexample: with maxRequests = 0 the very first call of a
window is still allowed, so within one window strictly more than
maxRequests calls are allowed. -/
theorem checkRateLimit_zero_max_counterexample :
    Security.allowedCount (Security.runCalls 0 60000 [0] none).1 = 1
      ∧ (Security.checkRateLimit 0 60000 0 none).1.allowed = true :=
  ⟨rfl, rfl⟩

/-- C5 (amended: for maxRequests at least 1): within one window at most
maxRequests calls are allowed; once the stored count has reached
maxRequests, every further call inside the window is refused with
remaining 0 and resetTime firstRequest + windowMs; and a call strictly
more than windowMs after the window start opens a fresh window with count
1, remaining maxRequests - 1. -/
theorem checkRateLimit_correct (maxRequests : ℕ) (windowMs : ℤ)
    (hmax : 1 ≤ maxRequests) :
    (∀ (t0 : ℤ) (ts : List ℤ), (∀ t ∈ ts, t - t0 ≤ windowMs) →
      Security.allowedCount
          (Security.runCalls maxRequests windowMs (t0 :: ts) none).1
        ≤ maxRequests)
    ∧ (∀ (e : Security.RateLimitEntry) (now : ℤ),
        now - e.firstRequest ≤ windowMs → maxRequests ≤ e.count →
        (Security.checkRateLimit maxRequests windowMs now (some e)).1
          = { allowed := false, remaining := 0,
              resetTime := e.firstRequest + windowMs })
    ∧ (∀ (e : Security.RateLimitEntry) (now : ℤ),
        now - e.firstRequest > windowMs →
        (Security.checkRateLimit maxRequests windowMs now (some e)).2
            = { count := 1, firstRequest := now, lastRequest := now }
          ∧ (Security.checkRateLimit maxRequests windowMs now (some e)).1.allowed
              = true
          ∧ (Security.checkRateLimit maxRequests windowMs now (some e)).1.remaining
              = (maxRequests : ℤ) - 1) := by
  refine ⟨?_, ?_, ?_⟩
  · intro t0 ts hw
    simp only [Security.runCalls, Security.checkRateLimit]
    rw [allowedCount_cons]
    have hrest := runCalls_inwindow_le maxRequests windowMs t0 ts
      { count := 1, firstRequest := t0, lastRequest := t0 } rfl hw
    simp only [if_pos] at hrest ⊢
    omega
  · intro e now hwin hcount
    simp only [Security.checkRateLimit]
    rw [if_neg (by omega : ¬(now - e.firstRequest > windowMs)),
      if_pos hcount]
  · intro e now hexp
    simp only [Security.checkRateLimit]
    rw [if_pos hexp]
    exact ⟨rfl, rfl, rfl⟩

/-- Witness for C5 at maxRequests 2, window 100 and four in-window
calls. -/
theorem checkRateLimit_correct_witness :
    Security.allowedCount (Security.runCalls 2 100 [0, 10, 20, 30] none).1 ≤ 2 :=
  (checkRateLimit_correct 2 100 (by decide)).1 0 [10, 20, 30] (by decide)

/-- C1 counterexample: at concrete dimensions the rsc style returns
exactly the default RSC geometry, so rsc does not produce geometry
distinct from the default shape. -/
theorem boxGeometry_rsc_not_distinct :
    Box3D.boxGeometry "rsc" 30 20 15 (3/10)
      = Box3D.createRSCGeometry 30 20 15 (3/10) := rfl

/-- C1 (amended): for all dimension arguments, the six stubbed styles
drawer, folding, gableTop, pillow, tuckEnd, hingedLid return exactly the
default RSC part list, and so does the rsc style itself; only the
autoBottom and display styles produce a part list distinct from the
default shape. -/
theorem boxGeometry_stub_styles_correct (length width height thickness : ℚ) :
    Box3D.boxGeometry "drawer" length width height thickness
        = Box3D.createRSCGeometry length width height thickness
    ∧ Box3D.boxGeometry "folding" length width height thickness
        = Box3D.createRSCGeometry length width height thickness
    ∧ Box3D.boxGeometry "gableTop" length width height thickness
        = Box3D.createRSCGeometry length width height thickness
    ∧ Box3D.boxGeometry "pillow" length width height thickness
        = Box3D.createRSCGeometry length width height thickness
    ∧ Box3D.boxGeometry "tuckEnd" length width height thickness
        = Box3D.createRSCGeometry length width height thickness
    ∧ Box3D.boxGeometry "hingedLid" length width height thickness
        = Box3D.createRSCGeometry length width height thickness
    ∧ Box3D.boxGeometry "rsc" length width height thickness
        = Box3D.createRSCGeometry length width height thickness
    ∧ Box3D.boxGeometry "autoBottom" length width height thickness
        ≠ Box3D.createRSCGeometry length width height thickness
    ∧ Box3D.boxGeometry "display" length width height thickness
        ≠ Box3D.createRSCGeometry length width height thickness := by
  refine ⟨rfl, rfl, rfl, rfl, rfl, rfl, rfl, ?_, ?_⟩
  · intro h
    have hl := congrArg List.length h
    simp [Box3D.boxGeometry, Box3D.createAutoBottomGeometry,
      Box3D.createRSCGeometry] at hl
  · intro h
    have hl := congrArg List.length h
    simp [Box3D.boxGeometry, Box3D.createDisplayBoxGeometry,
      Box3D.createRSCGeometry] at hl

/-- Witness for C1 (amended) at concrete dimensions. -/
theorem boxGeometry_stub_styles_correct_witness :
    Box3D.boxGeometry "drawer" 30 20 15 (3/10)
      = Box3D.createRSCGeometry 30 20 15 (3/10) :=
  (boxGeometry_stub_styles_correct 30 20 15 (3/10)).1

theorem mem_ite_nil {α : Type} {c : Prop} [Decidable c] {l : List α} {t : α} :
    (t ∈ if c then l else []) ↔ c ∧ t ∈ l := by
  split_ifs with h <;> simp [h]

/-- C8: every style in the BOX_STYLES table has a non-empty folding
sequence; the folding overlay at progress p shows the step index
floor(p * n), displaying the sequence entry there, or Complete past the
last entry; and animateFolding tweens exactly the named parts whose name
contains the step name, for the step whose stepProgress p * n - index
lies in (0, 1], to the x rotation stepProgress * pi / 2 (the tween stores
the target in units of pi). -/
theorem boxStyles_folding_correct :
    (∀ p ∈ Box3D.BOX_STYLES, p.2.foldingSequence ≠ [])
    ∧ (∀ (style : String) (progress : ℚ), 0 ≤ progress →
        ∀ s, (Box3D.foldingSequenceOf style).get?
            (Box3D.assemblyStep style progress).toNat = some s → s ≠ "" →
          Box3D.currentInstruction style (Box3D.assemblyStep style progress) = s)
    ∧ (∀ (style : String) (progress : ℚ), 0 ≤ progress →
        (Box3D.foldingSequenceOf style).length
            ≤ (Box3D.assemblyStep style progress).toNat →
          Box3D.currentInstruction style (Box3D.assemblyStep style progress)
            = "Complete")
    ∧ (∀ (children : List String) (style : String) (progress : ℚ)
          (t : Box3D.FoldTween),
        t ∈ Box3D.animateFolding children style progress ↔
          ∃ index : ℕ, index < (Box3D.foldingSequenceOf style).length
            ∧ 0 < progress * ((Box3D.foldingSequenceOf style).length : ℚ) - index
            ∧ progress * ((Box3D.foldingSequenceOf style).length : ℚ) - index ≤ 1
            ∧ t.partName ∈ children ∧ t.partName ≠ ""
            ∧ Box3D.jsIncludes
                ((Box3D.foldingSequenceOf style).getD index "").data
                t.partName.data = true
            ∧ t.targetXPi
                = (progress * ((Box3D.foldingSequenceOf style).length : ℚ)
                    - index) / 2) := by
  refine ⟨by decide, ?_, ?_, ?_⟩
  · intro style progress hp s hget hs
    have hstep : 0 ≤ Box3D.assemblyStep style progress :=
      Int.floor_nonneg.mpr (mul_nonneg hp (by positivity))
    simp only [Box3D.currentInstruction]
    rw [if_pos hstep, hget]
    simp [hs]
  · intro style progress hp hlen
    have hstep : 0 ≤ Box3D.assemblyStep style progress :=
      Int.floor_nonneg.mpr (mul_nonneg hp (by positivity))
    simp only [Box3D.currentInstruction]
    rw [if_pos hstep, List.get?_eq_none.mpr hlen]
  · intro children style progress t
    simp only [Box3D.animateFolding, List.mem_flatMap, List.mem_range,
      mem_ite_nil, List.mem_map, List.mem_filter]
    constructor
    · rintro ⟨index, hidx, ⟨hsp0, hsp1⟩, nm, ⟨hnm, hcond⟩, rfl⟩
      rw [Bool.and_eq_true, decide_eq_true_eq] at hcond
      exact ⟨index, hidx, hsp0, hsp1, hnm, hcond.1, hcond.2, rfl⟩
    · rintro ⟨index, hidx, hsp0, hsp1, hnm, hne, hinc, htx⟩
      refine ⟨index, hidx, ⟨hsp0, hsp1⟩, t.partName,
        ⟨hnm, ?_⟩, ?_⟩
      · rw [Bool.and_eq_true, decide_eq_true_eq]
        exact ⟨hne, hinc⟩
      · cases t
        simp_all

/-- Witness for C8: at one third progress the rsc overlay shows the
second step, sides. -/
theorem boxStyles_folding_correct_witness :
    Box3D.currentInstruction "rsc" (Box3D.assemblyStep "rsc" (1/3)) = "sides" := by
  have hseq : Box3D.foldingSequenceOf "rsc" = ["bottom", "sides", "top"] := by
    decide
  have hstep : Box3D.assemblyStep "rsc" (1/3) = 1 := by
    rw [Box3D.assemblyStep, hseq]
    rw [show ((["bottom", "sides", "top"].length : ℕ) : ℚ) = 3 by norm_num]
    rw [show (1/3 : ℚ) * 3 = 1 by norm_num]
    exact Int.floor_one
  exact boxStyles_folding_correct.2.1 "rsc" (1/3) (by norm_num) "sides"
    (by rw [hstep]; rw [hseq]; decide) (by decide)

theorem hexDigitChar_hex :
    ∀ n < 16, Security.isHexDigitChar (Security.hexDigitChar n) = true := by
  decide

theorem natToHexChars_hex (n : ℕ) :
    ∀ c ∈ Security.natToHexChars n, Security.isHexDigitChar c = true := by
  induction n using Nat.strong_induction_on with
  | _ n ih =>
    rw [Security.natToHexChars]
    split_ifs with h
    · intro c hc
      simp only [List.mem_singleton] at hc
      subst hc
      exact hexDigitChar_hex n h
    · intro c hc
      rcases List.mem_append.mp hc with h1 | h2
      · exact ih (n / 16) (Nat.div_lt_self (by omega) (by omega)) c h1
      · simp only [List.mem_singleton] at h2
        subst h2
        exact hexDigitChar_hex (n % 16) (Nat.mod_lt _ (by omega))

theorem natToHexChars_ne_nil (n : ℕ) : Security.natToHexChars n ≠ [] := by
  rw [Security.natToHexChars]
  split_ifs <;> simp

theorem padStart2Zero_hex (s : List Char)
    (hs : ∀ c ∈ s, Security.isHexDigitChar c = true) :
    ∀ c ∈ Security.padStart2Zero s, Security.isHexDigitChar c = true := by
  intro c hc
  unfold Security.padStart2Zero at hc
  split_ifs at hc
  · rcases List.mem_append.mp hc with h1 | h2
    · rw [List.eq_of_mem_replicate h1]
      decide
    · exact hs c h2
  · exact hs c hc

theorem padStart2Zero_ne_nil (s : List Char) (h : s ≠ []) :
    Security.padStart2Zero s ≠ [] := by
  unfold Security.padStart2Zero
  split_ifs <;> simp [h]

/-- C9: storing a CSRF token makes exactly that token validate; with no
stored token nothing validates; and the generated token is a non-empty
string of hexadecimal digits, for both the browser and the server branch,
whatever the 32 random draws were. -/
theorem csrf_correct :
    (∀ (slot : Option String) (t : String),
      Security.validateCSRFToken t (Security.setCSRFToken t slot) = true)
    ∧ (∀ (slot : Option String) (t u : String), u ≠ t →
      Security.validateCSRFToken u (Security.setCSRFToken t slot) = false)
    ∧ (∀ u : String, Security.validateCSRFToken u none = false)
    ∧ (∀ (isBrowser : Bool) (serverRandoms browserBytes : List ℕ),
        serverRandoms.length = 32 → browserBytes.length = 32 →
        (Security.generateCSRFToken isBrowser serverRandoms browserBytes ≠ []
         ∧ ∀ c ∈ Security.generateCSRFToken isBrowser serverRandoms browserBytes,
             Security.isHexDigitChar c = true)) := by
  refine ⟨?_, ?_, ?_, ?_⟩
  · intro slot t
    simp [Security.validateCSRFToken, Security.setCSRFToken,
      Security.getCSRFToken]
  · intro slot t u hne
    simp only [Security.validateCSRFToken, Security.setCSRFToken,
      Security.getCSRFToken]
    exact decide_eq_false (fun h => hne h.symm)
  · intro u
    rfl
  · intro isBrowser serverRandoms browserBytes hsl hbl
    cases isBrowser
    · simp only [Security.generateCSRFToken, Bool.not_false, if_pos]
      have hne : serverRandoms ≠ [] := by
        intro h
        rw [h] at hsl
        simp at hsl
      obtain ⟨a, as, rfl⟩ := List.exists_cons_of_ne_nil hne
      constructor
      · simp only [List.map_cons, List.flatten_cons, ne_eq,
          List.append_eq_nil]
        intro h
        exact natToHexChars_ne_nil a h.1
      · intro c hc
        simp only [List.mem_flatten, List.mem_map] at hc
        obtain ⟨l, ⟨m, _, rfl⟩, hcl⟩ := hc
        exact natToHexChars_hex m c hcl
    · simp only [Security.generateCSRFToken, Bool.not_true,
        Bool.false_eq_true, if_false]
      have hne : browserBytes ≠ [] := by
        intro h
        rw [h] at hbl
        simp at hbl
      obtain ⟨a, as, rfl⟩ := List.exists_cons_of_ne_nil hne
      constructor
      · simp only [List.map_cons, List.flatten_cons, ne_eq,
          List.append_eq_nil]
        intro h
        exact padStart2Zero_ne_nil _ (natToHexChars_ne_nil a) h.1
      · intro c hc
        simp only [List.mem_flatten, List.mem_map] at hc
        obtain ⟨l, ⟨m, _, rfl⟩, hcl⟩ := hc
        exact padStart2Zero_hex _ (natToHexChars_hex m) c hcl

/-- Witness for C9: a differing token fails validation, and a concrete
server-side draw yields a non-empty token. -/
theorem csrf_correct_witness :
    Security.validateCSRFToken "b" (Security.setCSRFToken "a" none) = false
    ∧ Security.generateCSRFToken false (List.replicate 32 0)
        (List.replicate 32 0) ≠ [] :=
  ⟨csrf_correct.2.1 none "a" "b" (by decide),
   (csrf_correct.2.2.2 false (List.replicate 32 0) (List.replicate 32 0)
      (by decide) (by decide)).1⟩

theorem b64Index_b64Char :
    ∀ n, n < 64 → Security.b64Index (Security.b64Char n) = some n := by decide

theorem b64Char_ne_eq : ∀ n, n < 64 → Security.b64Char n ≠ '=' := by decide

theorem base64Decode_encode : ∀ bs : List ℕ, (∀ b ∈ bs, b < 256) →
    Security.base64Decode (Security.base64Encode bs) = some bs
  | [], _ => rfl
  | [a], h => by
      have ha : a < 256 := h a (by simp)
      have e1 := b64Index_b64Char (a / 4) (by omega)
      have e2 := b64Index_b64Char (a % 4 * 16) (by omega)
      simp [Security.base64Encode, Security.base64Decode, e1, e2]
      omega
  | [a, b], h => by
      have ha : a < 256 := h a (by simp)
      have hb : b < 256 := h b (by simp)
      have e1 := b64Index_b64Char (a / 4) (by omega)
      have e2 := b64Index_b64Char (a % 4 * 16 + b / 16) (by omega)
      have n3 := b64Char_ne_eq (b % 16 * 4) (by omega)
      have e3 := b64Index_b64Char (b % 16 * 4) (by omega)
      simp [Security.base64Encode, Security.base64Decode, e1, e2, e3, n3]
      omega
  | a :: b :: c :: rest, h => by
      have ha : a < 256 := h a (by simp)
      have hb : b < 256 := h b (by simp)
      have hc : c < 256 := h c (by simp)
      have hrest : ∀ x ∈ rest, x < 256 := fun x hx => h x (by simp [hx])
      have e1 := b64Index_b64Char (a / 4) (by omega)
      have e2 := b64Index_b64Char (a % 4 * 16 + b / 16) (by omega)
      have n3 := b64Char_ne_eq (b % 16 * 4 + c / 64) (by omega)
      have e3 := b64Index_b64Char (b % 16 * 4 + c / 64) (by omega)
      have n4 := b64Char_ne_eq (c % 64) (by omega)
      have e4 := b64Index_b64Char (c % 64) (by omega)
      have erest := base64Decode_encode rest hrest
      simp [Security.base64Encode, Security.base64Decode, e1, e2, e3, e4,
        n3, n4, erest]
      omega

theorem char_valid_bounds (c : Char) :
    c.toNat < 0xD800 ∨ (0xDFFF < c.toNat ∧ c.toNat < 0x110000) := by
  have h := c.valid
  rcases h with h | h
  · exact Or.inl h
  · exact Or.inr h

theorem utf8DecodeHead_encodeChar (c : Char) (rest : List ℕ) :
    Security.utf8DecodeHead (Security.utf8EncodeChar c ++ rest)
      = some (c.toNat, rest) := by
  have hval := char_valid_bounds c
  have hn : c.toNat < 0x110000 := by rcases hval with h | ⟨_, h⟩ <;> omega
  have hs : c.toNat < 0xD800 ∨ 0xDFFF < c.toNat := by
    rcases hval with h | ⟨h, _⟩
    · exact Or.inl h
    · exact Or.inr h
  by_cases h1 : c.toNat < 0x80
  · simp only [Security.utf8EncodeChar, if_pos h1, List.cons_append,
      List.nil_append, Security.utf8DecodeHead]
  · by_cases h2 : c.toNat < 0x800
    · simp only [Security.utf8EncodeChar, if_neg h1, if_pos h2,
        List.cons_append, List.nil_append, Security.utf8DecodeHead]
      rw [if_neg (by omega : ¬(0xC0 + c.toNat / 0x40 < 0x80)),
        if_neg (by omega : ¬(0xC0 + c.toNat / 0x40 < 0xC0)),
        if_pos (by omega : 0xC0 + c.toNat / 0x40 < 0xE0),
        if_pos (by omega :
          0x80 ≤ 0x80 + c.toNat % 0x40 ∧ 0x80 + c.toNat % 0x40 < 0xC0),
        show (0xC0 + c.toNat / 0x40 - 0xC0) * 0x40
            + (0x80 + c.toNat % 0x40 - 0x80) = c.toNat from by omega,
        if_pos (by omega : 0x80 ≤ c.toNat)]
    · by_cases h3 : c.toNat < 0x10000
      · simp only [Security.utf8EncodeChar, if_neg h1, if_neg h2, if_pos h3,
          List.cons_append, List.nil_append, Security.utf8DecodeHead]
        rw [if_neg (by omega : ¬(0xE0 + c.toNat / 0x1000 < 0x80)),
          if_neg (by omega : ¬(0xE0 + c.toNat / 0x1000 < 0xC0)),
          if_neg (by omega : ¬(0xE0 + c.toNat / 0x1000 < 0xE0)),
          if_pos (by omega : 0xE0 + c.toNat / 0x1000 < 0xF0),
          if_pos (by omega :
            (0x80 ≤ 0x80 + c.toNat / 0x40 % 0x40
              ∧ 0x80 + c.toNat / 0x40 % 0x40 < 0xC0)
            ∧ (0x80 ≤ 0x80 + c.toNat % 0x40 ∧ 0x80 + c.toNat % 0x40 < 0xC0)),
          show (0xE0 + c.toNat / 0x1000 - 0xE0) * 0x1000
              + (0x80 + c.toNat / 0x40 % 0x40 - 0x80) * 0x40
              + (0x80 + c.toNat % 0x40 - 0x80) = c.toNat from by omega,
          if_pos (show 0x800 ≤ c.toNat
              ∧ ¬(0xD800 ≤ c.toNat ∧ c.toNat ≤ 0xDFFF) from by
            rcases hs with h | h <;> omega)]
      · simp only [Security.utf8EncodeChar, if_neg h1, if_neg h2, if_neg h3,
          List.cons_append, List.nil_append, Security.utf8DecodeHead]
        rw [if_neg (by omega : ¬(0xF0 + c.toNat / 0x40000 < 0x80)),
          if_neg (by omega : ¬(0xF0 + c.toNat / 0x40000 < 0xC0)),
          if_neg (by omega : ¬(0xF0 + c.toNat / 0x40000 < 0xE0)),
          if_neg (by omega : ¬(0xF0 + c.toNat / 0x40000 < 0xF0)),
          if_pos (by omega : 0xF0 + c.toNat / 0x40000 < 0xF8),
          if_pos (by omega :
            (0x80 ≤ 0x80 + c.toNat / 0x1000 % 0x40
              ∧ 0x80 + c.toNat / 0x1000 % 0x40 < 0xC0)
            ∧ (0x80 ≤ 0x80 + c.toNat / 0x40 % 0x40
              ∧ 0x80 + c.toNat / 0x40 % 0x40 < 0xC0)
            ∧ (0x80 ≤ 0x80 + c.toNat % 0x40 ∧ 0x80 + c.toNat % 0x40 < 0xC0)),
          show (0xF0 + c.toNat / 0x40000 - 0xF0) * 0x40000
              + (0x80 + c.toNat / 0x1000 % 0x40 - 0x80) * 0x1000
              + (0x80 + c.toNat / 0x40 % 0x40 - 0x80) * 0x40
              + (0x80 + c.toNat % 0x40 - 0x80) = c.toNat from by omega,
          if_pos (by omega : 0x10000 ≤ c.toNat ∧ c.toNat ≤ 0x10FFFF)]

theorem utf8EncodeChar_ne_nil (c : Char) : Security.utf8EncodeChar c ≠ [] := by
  simp only [Security.utf8EncodeChar]
  split_ifs <;> simp

theorem utf8DecodeAux_encode (s : List Char) :
    ∀ fuel : ℕ, (Security.utf8Encode s).length ≤ fuel →
      Security.utf8DecodeAux fuel (Security.utf8Encode s) = some s := by
  induction s with
  | nil => intro fuel _; cases fuel <;> rfl
  | cons c cs ih =>
      intro fuel hfuel
      have hsplit : Security.utf8Encode (c :: cs)
          = Security.utf8EncodeChar c ++ Security.utf8Encode cs := by
        simp [Security.utf8Encode]
      rw [hsplit] at hfuel ⊢
      have hpos : 0 < (Security.utf8EncodeChar c ++ Security.utf8Encode cs).length := by
        rcases hne : Security.utf8EncodeChar c with _ | ⟨b, bs⟩
        · exact absurd hne (utf8EncodeChar_ne_nil c)
        · simp
      match fuel with
      | 0 =>
          exfalso
          omega
      | f + 1 =>
          have hne : Security.utf8EncodeChar c ++ Security.utf8Encode cs ≠ [] := by
            intro h
            rw [h] at hpos
            simp at hpos
          obtain ⟨b, bs, heq⟩ := List.exists_cons_of_ne_nil hne
          rw [heq, Security.utf8DecodeAux]
          rw [← heq, utf8DecodeHead_encodeChar c (Security.utf8Encode cs)]
          have hlen : (Security.utf8Encode cs).length ≤ f := by
            have h1 : 1 ≤ (Security.utf8EncodeChar c).length := by
              rcases h : Security.utf8EncodeChar c with _ | _
              · exact absurd h (utf8EncodeChar_ne_nil c)
              · simp
            rw [List.length_append] at hfuel
            omega
          simp only [ih f hlen, Char.ofNat_toNat]
          simp

theorem utf8Decode_encode (s : List Char) :
    Security.utf8Decode (Security.utf8Encode s) = some s :=
  utf8DecodeAux_encode s (Security.utf8Encode s).length le_rfl

theorem utf8EncodeChar_lt_256 (c : Char) :
    ∀ b ∈ Security.utf8EncodeChar c, b < 256 := by
  have hval := char_valid_bounds c
  have hn : c.toNat < 0x110000 := by rcases hval with h | ⟨_, h⟩ <;> omega
  simp only [Security.utf8EncodeChar]
  split_ifs with h1 h2 h3 <;> intro b hb <;> fin_cases hb <;> omega

theorem utf8Encode_lt_256 (s : List Char) :
    ∀ b ∈ Security.utf8Encode s, b < 256 := by
  intro b hb
  simp only [Security.utf8Encode, List.mem_flatten, List.mem_map] at hb
  obtain ⟨l, ⟨c, _, rfl⟩, hbl⟩ := hb
  exact utf8EncodeChar_lt_256 c b hbl

theorem utf8Encode_ne_nil (s : List Char) (h : s ≠ []) :
    Security.utf8Encode s ≠ [] := by
  obtain ⟨c, cs, rfl⟩ := List.exists_cons_of_ne_nil h
  simp only [Security.utf8Encode, List.map_cons, List.flatten_cons, ne_eq,
    List.append_eq_nil]
  intro hcontra
  exact utf8EncodeChar_ne_nil c hcontra.1

theorem base64Encode_ne_nil (bs : List ℕ) (h : bs ≠ []) :
    Security.base64Encode bs ≠ [] := by
  match bs with
  | [] => exact absurd rfl h
  | [a] => simp [Security.base64Encode]
  | [a, b] => simp [Security.base64Encode]
  | a :: b :: c :: rest => simp [Security.base64Encode]

/-- C10 (amended: for non-empty well-formed values): the secureStorage
round trip stores base64 over UTF-8 and getItem recovers exactly the
stored value; after removeItem the key reads null; a never-set key reads
null. -/
theorem secureStorage_correct :
    (∀ (st : Security.Storage) (k v : List Char), v ≠ [] →
      Security.secureGetItem (Security.secureSetItem st k v) k = some v)
    ∧ (∀ (st : Security.Storage) (k : List Char),
      Security.secureGetItem (Security.secureRemoveItem st k) k = none)
    ∧ (∀ k : List Char,
      Security.secureGetItem Security.emptyStorage k = none) := by
  refine ⟨?_, ?_, ?_⟩
  · intro st k v hv
    have henc : Security.base64Encode (Security.utf8Encode v) ≠ [] :=
      base64Encode_ne_nil _ (utf8Encode_ne_nil v hv)
    simp only [Security.secureGetItem, Security.secureSetItem,
      Security.storageSet, if_pos]
    rw [if_neg henc]
    simp only [base64Decode_encode _ (utf8Encode_lt_256 v), utf8Decode_encode]
  · intro st k
    simp [Security.secureGetItem, Security.secureRemoveItem,
      Security.storageRemoveKey]
  · intro k
    rfl

/-- C10 counterexample: after storing the empty string, getItem returns
null rather than the empty string, because the getItem falsy check treats
the stored empty encoding as absent. -/
theorem secureStorage_empty_value_counterexample :
    Security.secureGetItem
      (Security.secureSetItem Security.emptyStorage "k".data []) "k".data
      = none := by decide

/-- Witness for C10 (amended) at a concrete key and value. -/
theorem secureStorage_correct_witness :
    Security.secureGetItem
      (Security.secureSetItem Security.emptyStorage "k".data "Hi".data)
      "k".data = some "Hi".data :=
  secureStorage_correct.1 Security.emptyStorage "k".data "Hi".data (by decide)
